import Mathlib

/-
Shallow embedding of the mflow flow-based-programming runtime core
(components/mflow: message_queue.{h,cpp}, port.{h,cpp}, component.{h,cpp},
runtime.{h,cpp}).

Modelling conventions:
* Message payloads travel through the queues as raw byte copies; a payload
  is abstracted as a single `Nat` (the byte image of one element).
* `TypeId` (`type_index` in utility.hpp, which is not part of the sources
  here) is modelled from the spec: a process-wide token with equality such
  that two monomorphized types agree iff they are the same type.  A type is
  therefore represented directly by its token, a `Nat`.
* Queues are shared between an InputPort and the OutputPorts connected to
  it (`std::shared_ptr<MessageQueue>`), so a port holds an optional queue
  reference (`Option QueueId`) and a `World` maps live queue ids to queue
  states.
* The blocking loops of `receive`, `send` and `await` are evaluated against
  one observed state of the world.  When the state is fixed, every later
  iteration of such a loop repeats the first, so a single invocation either
  returns (`some result`) or blocks on its FreeRTOS wait (`none`).
  `send_message` is the one loop whose contract is about the environment
  changing between retries; it is modelled over the list of per-iteration
  observations of the target queue.
-/

/-- Outcome of a send/receive operation (`MessageStatus` in mflow_config). -/
inductive MessageStatus
  | Okay
  | TypeMismatch
  | Terminated
  | Error
deriving DecidableEq

/-- State of a `MessageQueue` (message_queue.h): bounded FIFO of fixed-size
elements, a monotone `closed` flag, and the reader wake-target
(`m_reader_thread`; `hasReader` records whether the dereferenced task handle
is non-null). The element byte size plays no further role and is omitted. -/
structure MessageQueue where
  capacity : Nat
  closed : Bool
  messages : List Nat
  hasReader : Bool
deriving DecidableEq

/-- `MessageQueue::has_message`. -/
def MessageQueue.has_message (q : MessageQueue) : Bool :=
  !q.messages.isEmpty

/-- `MessageQueue::message_count`. -/
def MessageQueue.message_count (q : MessageQueue) : Nat :=
  q.messages.length

/-- `MessageQueue::is_closed`. -/
def MessageQueue.is_closed (q : MessageQueue) : Bool :=
  q.closed

/-- `MessageQueue::close`. -/
def MessageQueue.close (q : MessageQueue) : MessageQueue :=
  { q with closed := true }

/-- `MessageQueue::push_message`: `xQueueSendToBack` succeeds exactly when a
slot is free within the timeout (modelled as: a slot is free now); on
success the reader task, when present, is notified with the
`MESSAGE_ARRIVAL` bit.  The `closed` flag is NOT consulted here.  Returns
(push status, new queue state, notification raised). -/
def MessageQueue.push_message (q : MessageQueue) (msg : Nat) :
    Bool × MessageQueue × Bool :=
  if q.messages.length < q.capacity then
    (true, { q with messages := q.messages ++ [msg] }, q.hasReader)
  else
    (false, q, false)

/-- `MessageQueue::pop_message`: `xQueueReceive` with infinite timeout;
blocks (`none`) on an empty queue. -/
def MessageQueue.pop_message (q : MessageQueue) : Option (Nat × MessageQueue) :=
  match q.messages with
  | [] => none
  | m :: rest => some (m, { q with messages := rest })

/-- Identity of a shared `MessageQueue` (the `shared_ptr` target). -/
abbrev QueueId := Nat

/-- Replace the binding of a key in an association list, inserting it when
absent (`std::map::operator[]` followed by assignment). -/
def assocSet {β : Type} : List (Nat × β) → Nat → β → List (Nat × β)
  | [], k, v => [(k, v)]
  | (k', v') :: rest, k, v =>
    if k' = k then (k, v) :: rest else (k', v') :: assocSet rest k v

/-- The store of live message queues shared between ports. -/
structure World where
  queues : List (QueueId × MessageQueue)
deriving DecidableEq

/-- Dereference a queue id. -/
def World.get (w : World) (qid : QueueId) : Option MessageQueue :=
  w.queues.lookup qid

/-- Update the queue behind an id. -/
def World.set (w : World) (qid : QueueId) (q : MessageQueue) : World :=
  ⟨assocSet w.queues qid q⟩

/-- State of a `Port` (port.h): the parent component's identity
(`m_parent`), the observed value of the parent's volatile `should_run`
flag, the immutable message-type token (`m_type_id`), and the optional
shared queue reference (`m_queue`). -/
structure Port where
  parent : Nat
  parentShouldRun : Bool
  type_id : Nat
  queue : Option QueueId
deriving DecidableEq

/-- `Port::has_message`: forwards to the attached queue, `false` when no
queue is attached. -/
def Port.has_message (p : Port) (w : World) : Bool :=
  match p.queue with
  | some qid =>
    match w.get qid with
    | some q => q.has_message
    | none => false
  | none => false

/-- `Port::message_count`: forwards to the attached queue, `0` when no
queue is attached. -/
def Port.message_count (p : Port) (w : World) : Nat :=
  match p.queue with
  | some qid =>
    match w.get qid with
    | some q => q.message_count
    | none => 0
  | none => 0

/-- `Port::is_closed`: forwards to the attached queue, `true` when no queue
is attached. -/
def Port.is_closed (p : Port) (w : World) : Bool :=
  match p.queue with
  | some qid =>
    match w.get qid with
    | some q => q.is_closed
    | none => true
  | none => true

/-- `Port::is_parent_terminating`: negation of the parent component's
`should_run` flag. -/
def Port.is_parent_terminating (p : Port) : Bool :=
  !p.parentShouldRun

/-- `Port::send_to_message_queue`: when a queue is attached and not closed,
delegate to `push_message`; otherwise return `true` (silent discard).
Returns (status, world after, notification raised). -/
def Port.send_to_message_queue (p : Port) (msg : Nat) (w : World) :
    Bool × World × Bool :=
  match p.queue with
  | some qid =>
    match w.get qid with
    | some q =>
      if q.is_closed then
        (true, w, false)
      else
        match q.push_message msg with
        | (true, q', notif) => (true, w.set qid q', notif)
        | (false, _, _) => (false, w, false)
    | none => (true, w, false)
  | none => (true, w, false)

/-- `Port::receive_from_message_queue`: pop from the attached queue; the
source only calls this after `has_message()` is observed true, so the
blocking/no-queue cases are `none`. -/
def Port.receive_from_message_queue (p : Port) (w : World) :
    Option (Nat × World) :=
  match p.queue with
  | some qid =>
    match w.get qid with
    | some q =>
      match q.pop_message with
      | some (m, q') => some (m, w.set qid q')
      | none => none
    | none => none
  | none => none

/-- `InputPort::receive<Type>` evaluated against one observed state:
type-check first, then the retry loop (terminating → `Terminated`;
message available → pop and `Okay`; otherwise block on the notification,
which in a fixed state never produces a message: `none`).  `callType` is
`type_id<Type>()`.  Returns (status, received value, world after). -/
def InputPort.receive (p : Port) (callType : Nat) (w : World) :
    Option (MessageStatus × Option Nat × World) :=
  if p.type_id ≠ callType then
    some (.TypeMismatch, none, w)
  else if p.is_parent_terminating then
    some (.Terminated, none, w)
  else if p.has_message w then
    match p.receive_from_message_queue w with
    | some (m, w') => some (.Okay, some m, w')
    | none => none
  else
    none

/-- `OutputPort::send<Type>` evaluated against one observed state:
type-check first, then the retry loop `while (!is_parent_terminating())`.
With the state fixed, a failed push (queue full, open) repeats forever:
`none`.  Returns (status, world after, notification raised). -/
def OutputPort.send (p : Port) (callType : Nat) (msg : Nat) (w : World) :
    Option (MessageStatus × World × Bool) :=
  if p.type_id ≠ callType then
    some (.TypeMismatch, w, false)
  else if p.is_parent_terminating then
    some (.Terminated, w, false)
  else
    match p.send_to_message_queue msg w with
    | (true, w', notif) => some (.Okay, w', notif)
    | (false, _, _) => none

/-- `connect(OutputPort&, InputPort&)` (port.cpp): reject same-parent
connections first, then copy the target's queue reference when the message
types agree; every other case leaves the source port untouched. -/
def connect (source : Port) (target : Port) : Port :=
  if source.parent = target.parent then
    source
  else if source.type_id = target.type_id then
    { source with queue := target.queue }
  else
    source

/-- One retry iteration of `send_message` as observed on the target input
port's queue: whether the queue was closed at the loop guard, and whether
the push attempt within the timeout found a free slot. -/
structure QueueObs where
  closed : Bool
  hasRoom : Bool
deriving DecidableEq

/-- The retry loop of `send_message`: `while (!target.is_closed())` attempt
a push.  The list holds the successive per-iteration observations of the
(concurrently mutated) target queue; an exhausted list means the loop is
still retrying (`none`). -/
def send_message_loop : List QueueObs → Option MessageStatus
  | [] => none
  | o :: rest =>
    if o.closed then
      some .Terminated
    else if o.hasRoom then
      some .Okay
    else
      send_message_loop rest

/-- Top-level `send_message<Type>(InputPort&, msg)` (port.h): type-check
against the target port's token, then the retry loop over the observations
of the target queue. -/
def send_message (targetType callType : Nat) (obs : List QueueObs) :
    Option MessageStatus :=
  if targetType = callType then
    send_message_loop obs
  else
    some .TypeMismatch

/-- State of a `Component` relevant to `await`: the volatile `should_run`
flag and the input-port array (`InputArray`, a map from index to port). -/
structure Component where
  should_run : Bool
  inputs : List (Nat × Port)
deriving DecidableEq

/-- `inputs[index].has_message()` as used by `Component::await`; the
`at`-lookup presumes the index was declared (theorems about `await`
restrict to bound indices). -/
def Component.hasMessageAt (c : Component) (w : World) (i : Nat) : Bool :=
  match c.inputs.lookup i with
  | some p => p.has_message w
  | none => false

/-- `Component::await(input_indices)` evaluated against one observed state:
terminating → `(∅, Terminated)`; otherwise scan the indices in argument
order and return the first with a message; otherwise block on the
`MESSAGE_ARRIVAL` notification (`none` in a fixed state).  The body
performs no queue operation, so the world is returned unchanged. -/
def Component.await (c : Component) (indices : List Nat) (w : World) :
    Option ((Option Nat × MessageStatus) × World) :=
  if !c.should_run then
    some ((none, .Terminated), w)
  else
    match indices.find? (fun i => c.hasMessageAt w i) with
    | some i => some ((some i, .Okay), w)
    | none => none

/-- Observable lifecycle events of one component run. -/
inductive LifecycleEvent
  | init
  | proc
deriving DecidableEq

/-- The `while (m_should_run) process();` loop of `Component::run_process`:
`flags` is the sequence of values read from the volatile flag at the loop
guard; an exhausted list cuts the trace while the component still runs. -/
def process_loop : List Bool → List LifecycleEvent
  | [] => []
  | b :: rest => if b then .proc :: process_loop rest else []

/-- `Component::run_process` after the `PROCESS_START` notification is
consumed: `initialize()` once, then the process loop. -/
def run_process (flags : List Bool) : List LifecycleEvent :=
  .init :: process_loop flags

/-- The process-global runtime registry (runtime.cpp): `s_factories` maps a
component id to a factory, `s_nodes` maps an instance name to the component
instance it is bound to.  A factory call allocates a fresh instance,
identified here by the counter `next_instance`; names and ids are the
`const char*` keys, abstracted as `Nat`. -/
structure Registry where
  factories : List (Nat × Nat)
  nodes : List (Nat × Nat)
  next_instance : Nat
deriving DecidableEq

/-- `add_node(component_id, name)`: `s_nodes[name] =
s_factories[component_id]();` — the factory is called and the result is
assigned to `s_nodes[name]` unconditionally.  A missing factory makes the
source call a null function pointer (`none` here). -/
def add_node (r : Registry) (component_id name : Nat) : Option Registry :=
  match r.factories.lookup component_id with
  | some _ =>
    some { r with
             nodes := assocSet r.nodes name r.next_instance,
             next_instance := r.next_instance + 1 }
  | none => none

/-- Binding lookup after an `operator[]`-style assignment finds the newly
assigned value. -/
theorem lookup_assocSet {β : Type} (l : List (Nat × β)) (k : Nat) (v : β) :
    (assocSet l k v).lookup k = some v := by
  induction l with
  | nil => simp [assocSet, List.lookup]
  | cons hd tl ih =>
    obtain ⟨k', v'⟩ := hd
    by_cases h : k' = k
    · simp [assocSet, h, List.lookup]
    · simp only [assocSet, if_neg h, List.lookup]
      have hne : (k == k') = false := beq_eq_false_iff_ne.mpr fun e => h e.symm
      rw [hne]
      exact ih

/-- Claim C1: on a port declared with type `T`, `OutputPort::send<U>` and
`InputPort::receive<U>` for any `U ≠ T` return `TypeMismatch` and leave the
attached message queue (indeed the whole queue store) unchanged, pushing
and popping nothing. -/
theorem port_type_mismatch_spec (p : Port) (w : World) (u msg : Nat)
    (h : u ≠ p.type_id) :
    OutputPort.send p u msg w = some (.TypeMismatch, w, false) ∧
    InputPort.receive p u w = some (.TypeMismatch, none, w) := by
  constructor
  · unfold OutputPort.send
    rw [if_pos (Ne.symm h)]
  · unfold InputPort.receive
    rw [if_pos (Ne.symm h)]

/-- Witness for C1: a port of type token 1, called with token 2. -/
theorem port_type_mismatch_witness :
    OutputPort.send ⟨0, true, 1, none⟩ 2 5 ⟨[]⟩ =
      some (.TypeMismatch, ⟨[]⟩, false) ∧
    InputPort.receive ⟨0, true, 1, none⟩ 2 ⟨[]⟩ =
      some (.TypeMismatch, none, ⟨[]⟩) :=
  port_type_mismatch_spec ⟨0, true, 1, none⟩ ⟨[]⟩ 2 5 (by decide)

/-- Counterexample to claim C2 as stated: `send` with the declared type on
an unconnected `OutputPort` whose parent's `should_run` flag is `false`
returns `Terminated`, not `Okay` — the loop guard `!is_parent_terminating()`
is checked before the silent-discard send is ever attempted. -/
theorem send_unconnected_cex :
    OutputPort.send ⟨0, false, 7, none⟩ 7 3 ⟨[]⟩ =
      some (.Terminated, ⟨[]⟩, false) ∧
    (OutputPort.send ⟨0, false, 7, none⟩ 7 3 ⟨[]⟩).map (fun r => r.1) ≠
      some MessageStatus.Okay := by
  decide

/-- Claim C2 (amended): `send` with the declared type on an unconnected
`OutputPort` returns `Okay` when the parent component's `should_run` flag
holds, and `Terminated` when it does not; in both cases no queue is
modified and no notification is raised. -/
theorem send_unconnected_spec (p : Port) (w : World) (msg : Nat)
    (h : p.queue = none) :
    (p.parentShouldRun = true →
      OutputPort.send p p.type_id msg w = some (.Okay, w, false)) ∧
    (p.parentShouldRun = false →
      OutputPort.send p p.type_id msg w = some (.Terminated, w, false)) := by
  constructor <;> intro hr <;>
    simp [OutputPort.send, Port.is_parent_terminating,
          Port.send_to_message_queue, h, hr]

/-- Witness for C2 (amended): both branches at concrete unconnected ports. -/
theorem send_unconnected_spec_witness :
    OutputPort.send ⟨0, true, 7, none⟩ 7 3 ⟨[]⟩ = some (.Okay, ⟨[]⟩, false) ∧
    OutputPort.send ⟨1, false, 7, none⟩ 7 3 ⟨[]⟩ =
      some (.Terminated, ⟨[]⟩, false) :=
  ⟨(send_unconnected_spec ⟨0, true, 7, none⟩ ⟨[]⟩ 3 rfl).1 rfl,
   (send_unconnected_spec ⟨1, false, 7, none⟩ ⟨[]⟩ 3 rfl).2 rfl⟩

/-- Counterexample to claim C3 as stated: `MessageQueue::push_message` does
not consult the `closed` flag, so a push into a closed queue with a free
slot succeeds (returns `true`, not `false`) and enqueues the message. -/
theorem push_after_close_cex :
    (⟨1, true, [], false⟩ : MessageQueue).closed = true ∧
    (MessageQueue.push_message ⟨1, true, [], false⟩ 5).1 ≠ false ∧
    (MessageQueue.push_message ⟨1, true, [], false⟩ 5).2.1.messages ≠
      ([] : List Nat) := by
  decide

/-- Claim C3 (amended): the close guard lives in
`Port::send_to_message_queue`, not in `MessageQueue::push_message`: a send
through a port whose attached queue is closed returns immediately without
enqueueing anything and without notifying, but yields `true` (silent
discard), not `false`; `push_message` itself ignores the `closed` flag and
accepts the push whenever a slot is free. -/
theorem push_after_close_spec (p : Port) (w : World) (qid : QueueId)
    (q : MessageQueue) (msg : Nat)
    (hq : p.queue = some qid) (hg : w.get qid = some q)
    (hc : q.closed = true) :
    p.send_to_message_queue msg w = (true, w, false) ∧
    (q.messages.length < q.capacity →
      q.push_message msg =
        (true, { q with messages := q.messages ++ [msg] }, q.hasReader)) := by
  constructor
  · simp [Port.send_to_message_queue, hq, hg, MessageQueue.is_closed, hc]
  · intro hlt
    simp [MessageQueue.push_message, hlt]

/-- Witness for C3 (amended): a closed queue of capacity 1 with a free
slot. -/
theorem push_after_close_spec_witness :
    Port.send_to_message_queue ⟨0, true, 7, some 0⟩ 5
        ⟨[(0, ⟨1, true, [], false⟩)]⟩ =
      (true, ⟨[(0, ⟨1, true, [], false⟩)]⟩, false) ∧
    MessageQueue.push_message ⟨1, true, [], false⟩ 5 =
      (true, ⟨1, true, [5], false⟩, false) :=
  ⟨(push_after_close_spec ⟨0, true, 7, some 0⟩ ⟨[(0, ⟨1, true, [], false⟩)]⟩
      0 ⟨1, true, [], false⟩ 5 rfl rfl rfl).1,
   (push_after_close_spec ⟨0, true, 7, some 0⟩ ⟨[(0, ⟨1, true, [], false⟩)]⟩
      0 ⟨1, true, [], false⟩ 5 rfl rfl rfl).2 (by decide)⟩

/-- Counterexample to claim C4 as stated: with name 5 already bound to
instance 10, a second `add_node` is not rejected — the registry binds
name 5 to the freshly created instance 11 and the previous binding is
gone. -/
theorem add_node_duplicate_cex :
    (add_node ⟨[(0, 0)], [(5, 10)], 11⟩ 0 5) ≠ none ∧
    (add_node ⟨[(0, 0)], [(5, 10)], 11⟩ 0 5).map
        (fun r => r.nodes.lookup 5) = some (some 11) ∧
    (add_node ⟨[(0, 0)], [(5, 10)], 11⟩ 0 5).map
        (fun r => r.nodes.lookup 5) ≠ some (some 10) := by
  decide

/-- Claim C4 (amended): instance names are not kept unique —
`s_nodes[name] = s_factories[component_id]()` assigns unconditionally, so
when the factory exists a second `add_node` with an already-bound name
overwrites the binding with the freshly created instance (the previously
bound instance is dropped from the registry). -/
theorem add_node_duplicate_spec (r : Registry) (cid name old : Nat)
    (hf : (r.factories.lookup cid).isSome)
    (hn : r.nodes.lookup name = some old) :
    (add_node r cid name).map (fun r' => r'.nodes.lookup name) =
      some (some r.next_instance) := by
  obtain ⟨f, hfl⟩ := Option.isSome_iff_exists.mp hf
  simp [add_node, hfl, lookup_assocSet]

/-- Witness for C4 (amended): the registry of the counterexample. -/
theorem add_node_duplicate_spec_witness :
    (add_node ⟨[(0, 0)], [(5, 10)], 11⟩ 0 5).map
        (fun r' => r'.nodes.lookup 5) = some (some 11) :=
  add_node_duplicate_spec ⟨[(0, 0)], [(5, 10)], 11⟩ 0 5 10
    (by decide) (by decide)

/-- The retry loop of `send_message` is decided by the first iteration that
observes the queue closed or a free slot: closed wins (checked at the loop
guard) with `Terminated`, otherwise the push succeeds with `Okay`. -/
theorem send_message_loop_find (obs : List QueueObs) (o : QueueObs)
    (ho : obs.find? (fun x => x.closed || x.hasRoom) = some o) :
    send_message_loop obs =
      some (if o.closed then .Terminated else .Okay) := by
  induction obs with
  | nil => simp at ho
  | cons hd tl ih =>
    obtain ⟨hc, hr⟩ := hd
    rw [List.find?_cons] at ho
    cases hc <;> cases hr <;> simp_all [send_message_loop] <;>
      (subst ho; simp)

/-- Claim C5: `send_message<T>` returns `TypeMismatch` when the call type
disagrees with the target input port's declared type; with the declared
type it retries the push, returning `Terminated` when it observes the
target queue closed before a push succeeds and `Okay` as soon as a push
succeeds (`o` is the first decisive observation of the retry loop). -/
theorem send_message_spec (pt ct : Nat) (obs : List QueueObs) :
    (ct ≠ pt → send_message pt ct obs = some .TypeMismatch) ∧
    (∀ o, obs.find? (fun x => x.closed || x.hasRoom) = some o →
      send_message pt pt obs =
        some (if o.closed then .Terminated else .Okay)) := by
  constructor
  · intro h
    unfold send_message
    rw [if_neg (Ne.symm h)]
  · intro o ho
    unfold send_message
    rw [if_pos rfl]
    exact send_message_loop_find obs o ho

/-- Witness for C5: a mismatched call, and a matched call whose first two
retries find the queue full and whose third observes it closed. -/
theorem send_message_spec_witness :
    send_message 0 1 [] = some .TypeMismatch ∧
    send_message 0 0 [⟨false, false⟩, ⟨false, false⟩, ⟨true, false⟩] =
      some .Terminated := by
  constructor
  · exact (send_message_spec 0 1 []).1 (by decide)
  · simpa using
      (send_message_spec 0 0
        [⟨false, false⟩, ⟨false, false⟩, ⟨true, false⟩]).2 ⟨true, false⟩
        (by decide)

/-- Claim C6: `Component::await(indices)` returns `(∅, Terminated)` when
`should_run` is false; otherwise, when some listed input port has a
message, it returns `(i, Okay)` for the first index `i` in argument-list
order whose port satisfies `has_message()` (the `find?` hypothesis states
exactly that `i` is that first index).  The indices are required to be
declared input ports, as `InputArray::operator[]` presumes. -/
theorem await_spec (c : Component) (ix : List Nat) (w : World)
    (hb : ∀ i ∈ ix, (c.inputs.lookup i).isSome) :
    (c.should_run = false →
      c.await ix w = some ((none, .Terminated), w)) ∧
    (c.should_run = true →
      ∀ i, ix.find? (fun j => c.hasMessageAt w j) = some i →
        c.await ix w = some ((some i, .Okay), w)) := by
  constructor
  · intro h
    simp [Component.await, h]
  · intro h i hi
    simp [Component.await, h, hi]

/-- Witness for C6: one declared input port holding one message. -/
theorem await_spec_witness :
    Component.await ⟨true, [(0, ⟨0, true, 7, some 0⟩)]⟩ [0]
        ⟨[(0, ⟨1, false, [3], false⟩)]⟩ =
      some ((some 0, .Okay), ⟨[(0, ⟨1, false, [3], false⟩)]⟩) :=
  (await_spec ⟨true, [(0, ⟨0, true, 7, some 0⟩)]⟩ [0]
      ⟨[(0, ⟨1, false, [3], false⟩)]⟩ (by decide)).2 rfl 0 (by decide)

/-- Claim C7: `connect(out, in)` makes the output port share the input
port's queue exactly when the two ports carry the same type token and
belong to different parent components; in every other case the output port
is left untouched (an initially unconnected output stays unconnected). -/
theorem connect_spec (s t : Port) (qid : QueueId)
    (hs : s.queue = none) (ht : t.queue = some qid) :
    ((connect s t).queue = some qid ↔
      (s.type_id = t.type_id ∧ s.parent ≠ t.parent)) ∧
    (¬(s.type_id = t.type_id ∧ s.parent ≠ t.parent) → connect s t = s) := by
  unfold connect
  by_cases hp : s.parent = t.parent
  · simp [hp, hs]
  · by_cases hty : s.type_id = t.type_id
    · simp [hp, hty, ht]
    · simp [hp, hty, hs]

/-- Witness for C7: matching type tokens, distinct parents. -/
theorem connect_spec_witness :
    (connect ⟨0, true, 7, none⟩ ⟨1, true, 7, some 4⟩).queue = some 4 :=
  (connect_spec ⟨0, true, 7, none⟩ ⟨1, true, 7, some 4⟩ 4 rfl rfl).1.mpr
    (by decide)

/-- Claim C8: in every run of a component's execution context,
`initialize()` is invoked exactly once and strictly before every
`process()` invocation, and `process()` is invoked exactly as long as the
`should_run` flag is observed true at the loop guard (`flags` is the
sequence of observed values of the volatile flag). -/
theorem run_process_spec (flags : List Bool) :
    run_process flags =
      LifecycleEvent.init ::
        List.replicate (flags.takeWhile (fun b => b)).length
          LifecycleEvent.proc ∧
    (run_process flags).count LifecycleEvent.init = 1 := by
  have hloop : ∀ fs : List Bool,
      process_loop fs =
        List.replicate (fs.takeWhile (fun b => b)).length
          LifecycleEvent.proc := by
    intro fs
    induction fs with
    | nil => simp [process_loop]
    | cons b rest ih =>
      cases b
      · simp [process_loop, List.takeWhile_cons]
      · simp [process_loop, List.takeWhile_cons, ih, List.replicate_succ]
  refine ⟨by simp [run_process, hloop], ?_⟩
  simp [run_process, hloop, List.count_cons, List.count_replicate]

/-- Claim C9: with the parent component's `should_run` flag false,
`InputPort::receive` with the declared type returns `(∅, Terminated)` even
when the attached queue holds messages, and pops nothing — the termination
check precedes the `has_message` check in the receive loop. -/
theorem receive_terminated_spec (p : Port) (w : World) (qid : QueueId)
    (q : MessageQueue)
    (hr : p.parentShouldRun = false)
    (hq : p.queue = some qid) (hg : w.get qid = some q)
    (hne : q.messages ≠ []) :
    InputPort.receive p p.type_id w = some (.Terminated, none, w) := by
  simp [InputPort.receive, Port.is_parent_terminating, hr]

/-- Witness for C9: a stopping parent and a queue holding one message. -/
theorem receive_terminated_witness :
    InputPort.receive ⟨0, false, 7, some 0⟩ 7
        ⟨[(0, ⟨1, false, [3], false⟩)]⟩ =
      some (.Terminated, none, ⟨[(0, ⟨1, false, [3], false⟩)]⟩) :=
  receive_terminated_spec ⟨0, false, 7, some 0⟩
    ⟨[(0, ⟨1, false, [3], false⟩)]⟩ 0 ⟨1, false, [3], false⟩
    rfl rfl rfl (by decide)

/-- Claim C10: whenever `Component::await` returns, the queue store is
unchanged — the call pushes and pops nothing — and when it returns
`(some i, ·)` the port at index `i` still satisfies `has_message()` (the
status then being `Okay`), so the message must be read by a separate
receive. -/
theorem await_frame_spec (c : Component) (ix : List Nat) (w : World)
    (r : Option Nat × MessageStatus) (w' : World)
    (h : c.await ix w = some (r, w')) :
    w' = w ∧
    ∀ i, r.1 = some i → c.hasMessageAt w i = true ∧ r.2 = .Okay := by
  by_cases hs : c.should_run = true
  · cases hf : ix.find? (fun i => c.hasMessageAt w i) with
    | some j =>
      have e2 : c.await ix w = some ((some j, .Okay), w) := by
        simp [Component.await, hs, hf]
      rw [e2, Option.some_inj] at h
      have h1 : r = (some j, MessageStatus.Okay) := (congrArg Prod.fst h).symm
      have hw : w' = w := (congrArg Prod.snd h).symm
      refine ⟨hw, ?_⟩
      intro i hi
      have hji : j = i := by
        rw [h1] at hi
        exact Option.some_inj.mp hi
      have hmsg := List.find?_some hf
      subst hji
      exact ⟨by simpa using hmsg, by rw [h1]⟩
    | none =>
      have e3 : c.await ix w = none := by
        simp [Component.await, hs, hf]
      rw [e3] at h
      exact Option.noConfusion h
  · have hs' : c.should_run = false := by
      simpa using hs
    have e1 : c.await ix w = some ((none, .Terminated), w) := by
      simp [Component.await, hs']
    rw [e1, Option.some_inj] at h
    have h1 : r = (none, MessageStatus.Terminated) := (congrArg Prod.fst h).symm
    have hw : w' = w := (congrArg Prod.snd h).symm
    refine ⟨hw, ?_⟩
    intro i hi
    rw [h1] at hi
    exact Option.noConfusion hi

/-- Witness for C10: an `await` that found a message on input port 0 left
the queue store unchanged and the message still pending on that port. -/
theorem await_frame_witness :
    Component.hasMessageAt ⟨true, [(0, ⟨0, true, 7, some 0⟩)]⟩
        ⟨[(0, ⟨1, false, [3], false⟩)]⟩ 0 = true ∧
    (some 0, MessageStatus.Okay).2 = MessageStatus.Okay :=
  (await_frame_spec ⟨true, [(0, ⟨0, true, 7, some 0⟩)]⟩ [0]
      ⟨[(0, ⟨1, false, [3], false⟩)]⟩ (some 0, .Okay)
      ⟨[(0, ⟨1, false, [3], false⟩)]⟩ rfl).2 0 rfl
